import Mathlib

/-! Shallow embedding of the statement-ingestion pipeline of the taxmate
frontend: the raw extractors (GTBank-style PDF tables, CSV), the row
normalizer that the extractors apply inline, and the review/confirm engine.
Numeric cells are modelled over the rationals; Python `float(...)` is
modelled on signed decimal literals (exponents, infinities, nan and
underscore separators are outside the model, as are non-ASCII whitespace
forms for `str.strip()`).  All definitions follow `src/app.py`.
-/

/-- Model of the whitespace characters removed by Python `str.strip()`. -/
def pySpace (c : Char) : Bool :=
  c = ' ' || c = '\t' || c = '\n' || c = '\r' || c = '\x0b' || c = '\x0c'

/-- Model of Python `s.strip()`: drop leading and trailing whitespace. -/
def pyStrip (s : String) : String :=
  String.mk (((s.toList.dropWhile pySpace).reverse.dropWhile pySpace).reverse)

/-- Model of Python `s.replace(",", "")` as used on numeric cells. -/
def removeCommas (s : String) : String :=
  String.mk (s.toList.filter (fun c => !(c == ',')))

/-- Model of Python `sep.join(parts)`. -/
def pyJoin (sep : String) : List String → String
  | [] => ""
  | [s] => s
  | s :: rest => s ++ sep ++ pyJoin sep rest

/-- Model of Python substring containment `needle in hay`. -/
def strContainsSub (needle hay : String) : Bool :=
  (List.range (hay.toList.length + 1)).any
    (fun i => needle.toList.isPrefixOf (hay.toList.drop i))

/-- Value of a run of decimal digit characters. -/
def digitsVal (l : List Char) : Nat :=
  l.foldl (fun a c => 10 * a + (c.toNat - 48)) 0

/-- Model of Python `float(s)` on signed decimal literals: optional sign,
then digits with an optional fractional part (`"5"`, `"-5"`, `"5."`,
`".5"`, `"15000.00"`).  `none` models a `ValueError`. -/
def pyFloat? (s : String) : Option ℚ :=
  let cs := s.toList
  let signRest : ℤ × List Char :=
    match cs with
    | '-' :: r => (-1, r)
    | '+' :: r => (1, r)
    | r => (1, r)
  let intPart := signRest.2.takeWhile Char.isDigit
  let rest2 := signRest.2.dropWhile Char.isDigit
  match rest2 with
  | [] => if intPart.isEmpty then none else some (mkRat (signRest.1 * digitsVal intPart) 1)
  | '.' :: fr =>
    let fracPart := fr.takeWhile Char.isDigit
    let rest3 := fr.dropWhile Char.isDigit
    if rest3.isEmpty && !(intPart.isEmpty && fracPart.isEmpty) then
      some (mkRat
        (signRest.1 * (digitsVal intPart * 10 ^ fracPart.length + digitsVal fracPart))
        (10 ^ fracPart.length))
    else none
  | _ => none

/-- Defensive numeric parse of a stripped, comma-free cell (app.py lines
146-153 and 1387-1394): a blank cell and a `ValueError` both yield 0.0. -/
def parseAmount (s : String) : ℚ :=
  if s = "" then 0 else (pyFloat? s).getD 0

/-- Row shape sent to the backend importStatement API (both extractors). -/
structure BackendRow where
  date : String
  description : String
  amount : ℚ
  direction : String
  reference : Option String
  counterparty : Option String
deriving DecidableEq

/-- Preview row built by the PDF extractor for display. -/
structure PreviewRow where
  date : String
  reference : String
  value_date : String
  debit : ℚ
  credit : ℚ
  balance : String
  remarks : String
  mapped_direction : String
  mapped_amount : ℚ
deriving DecidableEq

/-- A PDF table row as returned by pdfplumber: a list of optional cells. -/
abbrev PdfRow := List (Option String)

/-- Cell access `(row[i] or "")` with out-of-range modelled as missing. -/
def pdfCell (row : PdfRow) (i : Nat) : String :=
  (row.getD i none).getD ""

/-- The string `" ".join([cell or "" for cell in row])` (app.py line 122). -/
def pdfJoined (row : PdfRow) : String :=
  pyJoin " " (row.map (fun c => c.getD ""))

def pdfDate (row : PdfRow) : String := pyStrip (pdfCell row 0)

def pdfReference (row : PdfRow) : String := pyStrip (pdfCell row 1)

def pdfValueDate (row : PdfRow) : String := pyStrip (pdfCell row 2)

def pdfDebitStr (row : PdfRow) : String := pyStrip (removeCommas (pdfCell row 3))

def pdfCreditStr (row : PdfRow) : String := pyStrip (removeCommas (pdfCell row 4))

def pdfBalance (row : PdfRow) : String :=
  if row.length > 5 then pyStrip (pdfCell row 5) else ""

def pdfRemarks (row : PdfRow) : String :=
  if row.length > 6 then pyStrip (pdfCell row 6) else ""

/-- Parsed debit amount of a PDF row (app.py lines 146-149). -/
def pdfDebit (row : PdfRow) : ℚ := parseAmount (pdfDebitStr row)

/-- Parsed credit amount of a PDF row (app.py lines 150-153). -/
def pdfCredit (row : PdfRow) : ℚ := parseAmount (pdfCreditStr row)

/-- Direction assigned by the PDF extractor (app.py lines 165-170): note the
bare `else` branch, with no `debit > 0` guard. -/
def pdfDirection (row : PdfRow) : String :=
  if 0 < pdfCredit row then "INCOME" else "EXPENSE"

/-- Amount assigned by the PDF extractor (app.py lines 165-170). -/
def pdfAmount (row : PdfRow) : ℚ :=
  if 0 < pdfCredit row then pdfCredit row else pdfDebit row

/-- Description synthesis (app.py lines 159-163): join the truthy parts of
`[reference, remarks]` with a single space, strip, and fall back to
`reference or remarks or ""` when the join is empty. -/
def descSynth (reference remarks : String) : String :=
  let joined := pyStrip (pyJoin " " (List.filter (fun s => !(s == "")) [reference, remarks]))
  if joined = "" then
    if reference ≠ "" then reference else if remarks ≠ "" then remarks else ""
  else joined

/-- The backend `reference` field: `reference or None` (app.py line 178). -/
def pdfRefOpt (row : PdfRow) : Option String :=
  if pdfReference row = "" then none else some (pdfReference row)

/-- Per-row body of the PDF extractor loop (app.py lines 117-195): `none`
models `continue`, `some` models appending one preview row and one backend
row. -/
def pdfProcessRow (row : PdfRow) : Option (PreviewRow × BackendRow) :=
  if row = [] then none
  else if strContainsSub "Trans" (pdfJoined row) && strContainsSub "Debit" (pdfJoined row) then
    none
  else if row.length < 5 then none
  else if pdfDate row = "" then none
  else if pdfDebit row = 0 ∧ pdfCredit row = 0 then none
  else
    some
      ({ date := pdfDate row, reference := pdfReference row, value_date := pdfValueDate row,
         debit := pdfDebit row, credit := pdfCredit row, balance := pdfBalance row,
         remarks := pdfRemarks row, mapped_direction := pdfDirection row,
         mapped_amount := pdfAmount row },
       { date := pdfDate row,
         description := descSynth (pdfReference row) (pdfRemarks row),
         amount := pdfAmount row, direction := pdfDirection row,
         reference := pdfRefOpt row,
         counterparty := none })

/-- Whole-file PDF extraction (app.py lines 95-197): iterate pages, then
tables, then rows; the source appends a preview row and a backend row for
exactly the rows the loop body accepts, in page/table/row order (the
source's `continue` on an empty table list or empty table skips nothing a
plain iteration would visit). -/
def parse_gtbank_pdf_to_rows (pages : List (List (List PdfRow))) :
    List PreviewRow × List BackendRow :=
  ((pages.flatten.flatten).filterMap (fun r => (pdfProcessRow r).map Prod.fst),
   (pages.flatten.flatten).filterMap (fun r => (pdfProcessRow r).map Prod.snd))

/-- Preview row built by the CSV branch of `page_hustle` for display. -/
structure CsvPreviewRow where
  date : String
  description : String
  debit : ℚ
  credit : ℚ
  mapped_direction : String
  mapped_amount : ℚ
deriving DecidableEq

/-- A CSV data row as produced by `csv.DictReader`, restricted to the four
required fields; a missing cell is `none` (additional columns are ignored
by the source and play no role). -/
structure CsvRow where
  date : Option String
  description : Option String
  debit : Option String
  credit : Option String
deriving DecidableEq

def csvDate (r : CsvRow) : String := pyStrip (r.date.getD "")

def csvDesc (r : CsvRow) : String := pyStrip (r.description.getD "")

def csvDebitStr (r : CsvRow) : String := pyStrip (removeCommas (r.debit.getD ""))

def csvCreditStr (r : CsvRow) : String := pyStrip (removeCommas (r.credit.getD ""))

/-- Parsed debit amount of a CSV row (app.py lines 1387-1390). -/
def csvDebit (r : CsvRow) : ℚ := parseAmount (csvDebitStr r)

/-- Parsed credit amount of a CSV row (app.py lines 1391-1394). -/
def csvCredit (r : CsvRow) : ℚ := parseAmount (csvCreditStr r)

/-- Per-row body of the CSV extraction loop (app.py lines 1378-1424):
`none` models `continue`, `some` models appending one preview row and one
backend row.  Note the `elif debit > 0 ... else continue` shape of the
direction rule here, unlike the PDF extractor's bare `else`. -/
def csvProcessRow (r : CsvRow) : Option (CsvPreviewRow × BackendRow) :=
  if csvDate r = "" ∨ csvDesc r = "" then none
  else if 0 < csvCredit r then
    some
      ({ date := csvDate r, description := csvDesc r, debit := csvDebit r,
         credit := csvCredit r, mapped_direction := "INCOME", mapped_amount := csvCredit r },
       { date := csvDate r, description := csvDesc r, amount := csvCredit r,
         direction := "INCOME", reference := none, counterparty := none })
  else if 0 < csvDebit r then
    some
      ({ date := csvDate r, description := csvDesc r, debit := csvDebit r,
         credit := csvCredit r, mapped_direction := "EXPENSE", mapped_amount := csvDebit r },
       { date := csvDate r, description := csvDesc r, amount := csvDebit r,
         direction := "EXPENSE", reference := none, counterparty := none })
  else none

/-- The required CSV header fields (app.py line 1366). -/
def required_cols : List String := ["date", "description", "debit", "credit"]

/-- The required CSV header fields in alphabetical order: the source
computes `sorted(required_cols - set(fieldnames))`, which is the same as
filtering the alphabetically sorted required set. -/
def required_cols_sorted : List String := ["credit", "date", "debit", "description"]

/-- The alphabetically sorted list of required header fields missing from
the CSV header (app.py line 1367 together with the `sorted` on line 1370). -/
def csvMissing (fieldnames : List String) : List String :=
  required_cols_sorted.filter (fun c => !(fieldnames.contains c))

/-- Result of the CSV branch: either the fatal missing-header error naming
the missing fields, or the extracted preview and backend row sequences. -/
inductive CsvResult where
  | missingCols (missing : List String)
  | ok (preview : List CsvPreviewRow) (backend : List BackendRow)
deriving DecidableEq

/-- CSV extraction (app.py lines 1362-1424): the header check runs before
any data row is touched; otherwise each data row is processed in order. -/
def csvExtract (fieldnames : List String) (rows : List CsvRow) : CsvResult :=
  if csvMissing fieldnames ≠ [] then CsvResult.missingCols (csvMissing fieldnames)
  else
    CsvResult.ok (rows.filterMap (fun r => (csvProcessRow r).map Prod.fst))
      (rows.filterMap (fun r => (csvProcessRow r).map Prod.snd))

/-- The closed category vocabulary (app.py lines 15-25). -/
def CATEGORY_OPTIONS : List String :=
  ["SALES", "STOCK", "FUEL", "DATA_AIRTIME", "RENT", "EQUIPMENT", "TRANSPORT", "FOOD", "MISC"]

/-- Python `x or default` on an optional string field: `None` and the empty
string are both falsy. -/
def pyOrS (o : Option String) (dflt : String) : String :=
  match o with
  | none => dflt
  | some s => if s = "" then dflt else s

/-- A row of the imported Statement as returned by the import service
(untrusted values, hence every field optional). -/
structure ImportedRow where
  id : Option String
  dateRaw : Option String
  descriptionRaw : Option String
  amountRaw : Option String
  directionSuggested : Option String
  categorySuggested : Option String
  confidence : Option ℚ
  source : Option String
deriving DecidableEq

/-- One row of the editable review table; `importFlag` models the `import`
checkbox column (renamed because `import` is reserved in Lean). -/
structure EditorRow where
  importFlag : Bool
  id : Option String
  date : Option String
  description : Option String
  amount : ℚ
  direction : String
  category : String
  source : Option String
  confidence : Option ℚ
deriving DecidableEq

/-- Default review decision derived from one ImportedRow (app.py lines
1475-1502): include by default, suggested direction with falsy values
defaulted to INCOME, suggested category coerced into the vocabulary. -/
def buildEditorRow (r : ImportedRow) : EditorRow :=
  let amount : ℚ :=
    match r.amountRaw with
    | none => 0
    | some s => if s = "" then 0 else (pyFloat? s).getD 0
  let direction := pyOrS r.directionSuggested "INCOME"
  let suggested_category := pyOrS r.categorySuggested "MISC"
  let category :=
    if !(CATEGORY_OPTIONS.contains suggested_category) then "MISC" else suggested_category
  { importFlag := true, id := r.id, date := r.dateRaw, description := r.descriptionRaw,
    amount := amount, direction := direction, category := category,
    source := r.source, confidence := r.confidence }

/-- Review initialization (app.py lines 1474-1502): one editor row
per imported row. -/
def data_for_editor (rows : List ImportedRow) : List EditorRow :=
  rows.map buildEditorRow

/-- One item of the confirm payload (app.py lines 1539-1546). -/
structure ConfirmItem where
  importedTransactionId : String
  finalType : String
  finalCategory : String
  note : Option String
deriving DecidableEq

/-- The item built from one kept editor row (app.py lines 1539-1546). -/
def toConfirmItem (r : EditorRow) : ConfirmItem :=
  { importedTransactionId := r.id.getD "", finalType := r.direction,
    finalCategory := r.category, note := none }

/-- The commit payload items (app.py lines 1530-1546): skip rows whose
checkbox is off, then skip rows with a falsy id, direction or category,
and reduce the rest. -/
def buildItems (rows : List EditorRow) : List ConfirmItem :=
  rows.filterMap (fun row =>
    if row.importFlag = false then none
    else if row.id.getD "" = "" ∨ row.direction = "" ∨ row.category = "" then none
    else some (toConfirmItem row))

/-- Observable outcome of pressing the save button (app.py lines 1548-1557):
either a local warning with no network call, or a confirm-service call
carrying the payload. -/
inductive CommitAction where
  | warned
  | called (payload : List ConfirmItem)
deriving DecidableEq

/-- The commit transition on the loaded decision set: when the reduced item
list is empty the session shows a warning and keeps its decisions; otherwise
the confirm service is called with the payload (app.py lines 1548-1557). -/
def commitTransition (decisions : List EditorRow) : List EditorRow × CommitAction :=
  let items := buildItems decisions
  if items = [] then (decisions, CommitAction.warned)
  else (decisions, CommitAction.called items)

/-! Concrete inputs used to instantiate the theorems below. -/

/-- A GTBank header row as it appears in the PDF tables. -/
def exHeaderRow : PdfRow :=
  [some "Trans Date", some "Reference", some "Value Date", some "Debit",
   some "Credit", some "Balance", some "Remarks"]

/-- A credit (income) PDF data row. -/
def exIncomeRow : PdfRow :=
  [some "2024-01-05", some "REF", some "VD", some "", some "15000"]

/-- A PDF data row with a negative credit cell and a blank debit cell. -/
def exNegCreditRow : PdfRow :=
  [some "2024-01-05", some "REF", some "2024-01-05", some "", some "-5"]

/-- A PDF data row with a negative debit cell and a blank credit cell. -/
def exNegDebitRow : PdfRow :=
  [some "2024-01-05", some "REF", some "2024-01-05", some "-5", some ""]

/-- A debit PDF data row with empty reference and remarks cells. -/
def exNoDescRow : PdfRow :=
  [some "2024-01-05", some "", some "", some "5", some ""]

/-- A debit PDF data row carrying both a reference and a remarks cell. -/
def exRemarksRow : PdfRow :=
  [some "2024-01-05", some "REF", some "VD", some "5", some "", some "BAL", some "NOTE"]

/-- A PDF row with an empty date cell but a non-zero debit cell. -/
def exEmptyDateRow : PdfRow :=
  [some "", some "REF", some "VD", some "5", some ""]

/-- A PDF subtotal-style row whose debit and credit cells both parse to 0. -/
def exZeroPdfRow : PdfRow :=
  [some "2024-01-07", some "SUBTOTAL", some "x", some "0", some "0"]

/-- A CSV income data row. -/
def exCsvIncomeRow : CsvRow :=
  ⟨some "2024-01-05", some "POS deposit", some "", some "15000"⟩

/-- A CSV expense data row. -/
def exCsvExpenseRow : CsvRow :=
  ⟨some "2024-01-06", some "Fuel", some "5000", some ""⟩

/-- A CSV subtotal row whose debit and credit cells both parse to 0. -/
def exCsvZeroRow : CsvRow :=
  ⟨some "2024-01-07", some "Subtotal", some "0", some "0"⟩

/-- An imported row whose suggested category is outside the vocabulary. -/
def exImportedWeird : ImportedRow :=
  ⟨some "r2", some "2024-01-06", some "Fuel", some "5000", some "EXPENSE",
   some "WEIRD", none, some "CSV"⟩

/-- An imported row with an in-vocabulary suggestion. -/
def exImportedFuel : ImportedRow :=
  ⟨some "r1", some "2024-01-06", some "Fuel", some "5000", some "EXPENSE",
   some "FUEL", none, some "CSV"⟩

/-- An editor row marked for import with all commit fields present. -/
def exOnRow : EditorRow :=
  ⟨true, some "r1", none, none, 5000, "EXPENSE", "FUEL", none, none⟩

/-- An editor row with the import checkbox cleared. -/
def exOffRow : EditorRow :=
  ⟨false, some "r2", none, none, 0, "INCOME", "SALES", none, none⟩

/-- An editor row marked for import but with no id. -/
def exNoIdRow : EditorRow :=
  ⟨true, none, none, none, 0, "EXPENSE", "FUEL", none, none⟩

/-- The preview row the PDF extractor produces from `exIncomeRow`. -/
def exIncomePreview : PreviewRow :=
  ⟨"2024-01-05", "REF", "VD", 0, 15000, "", "", "INCOME", 15000⟩

/-- The backend row the PDF extractor produces from `exIncomeRow`. -/
def exIncomeBackend : BackendRow :=
  ⟨"2024-01-05", "REF", 15000, "INCOME", some "REF", none⟩

/-- The preview row the PDF extractor produces from `exRemarksRow`. -/
def exRemarksPreview : PreviewRow :=
  ⟨"2024-01-05", "REF", "VD", 5, 0, "BAL", "NOTE", "EXPENSE", 5⟩

/-- The backend row the PDF extractor produces from `exRemarksRow`. -/
def exRemarksBackend : BackendRow :=
  ⟨"2024-01-05", "REF NOTE", 5, "EXPENSE", some "REF", none⟩

/-- The preview row the CSV extractor produces from `exCsvIncomeRow`. -/
def exCsvIncomePreview : CsvPreviewRow :=
  ⟨"2024-01-05", "POS deposit", 0, 15000, "INCOME", 15000⟩

/-- The backend row the CSV extractor produces from `exCsvIncomeRow`. -/
def exCsvIncomeBackend : BackendRow :=
  ⟨"2024-01-05", "POS deposit", 15000, "INCOME", none, none⟩

/-- A CSV data-row list holding one income row and one all-zero row. -/
def exCsvRows : List CsvRow := [exCsvIncomeRow, exCsvZeroRow]

/-- A one-page, one-table PDF holding one income row and one zero row. -/
def exPdfPages : List (List (List PdfRow)) := [[[exIncomeRow, exZeroPdfRow]]]

/-- The preview sequence extracted from `exCsvRows`. -/
def exCsvPreviewOut : List CsvPreviewRow := [exCsvIncomePreview]

/-- The backend sequence extracted from `exCsvRows`. -/
def exCsvBackendOut : List BackendRow := [exCsvIncomeBackend]

/-! Helper lemmas. -/

lemma length_filterMap_lt_of_none {α β : Type} (f : α → Option β) (l : List α)
    (a : α) (ha : a ∈ l) (hfa : f a = none) :
    (l.filterMap f).length < l.length := by
  induction l with
  | nil => cases ha
  | cons x t ih =>
    rcases List.mem_cons.mp ha with rfl | hat
    · simp only [List.filterMap_cons, hfa]
      exact Nat.lt_succ_of_le (List.length_filterMap_le f t)
    · cases hfx : f x with
      | none =>
        simp only [List.filterMap_cons, hfx, List.length_cons]
        exact Nat.lt_succ_of_lt (ih hat)
      | some b =>
        simp only [List.filterMap_cons, hfx, List.length_cons]
        exact Nat.succ_lt_succ (ih hat)

lemma descSynth_ne_empty (reference remarks : String)
    (h : ¬(reference = "" ∧ remarks = "")) :
    descSynth reference remarks ≠ "" := by
  simp only [descSynth]
  split_ifs with h1 h2 h3
  · exact h2
  · exact h3
  · exact absurd ⟨not_ne_iff.mp h2, not_ne_iff.mp h3⟩ h
  · exact h1

lemma descSynth_eq_empty_iff (reference remarks : String) :
    descSynth reference remarks = "" ↔ (reference = "" ∧ remarks = "") := by
  constructor
  · intro h
    by_contra hne
    exact descSynth_ne_empty reference remarks hne h
  · rintro ⟨rfl, rfl⟩
    decide

lemma mem_csvMissing_iff (fieldnames : List String) (c : String) :
    c ∈ csvMissing fieldnames ↔ (c ∈ required_cols ∧ c ∉ fieldnames) := by
  have hmem : c ∈ required_cols_sorted ↔ c ∈ required_cols := by
    simp only [required_cols, required_cols_sorted, List.mem_cons, List.not_mem_nil, or_false]
    tauto
  rw [csvMissing, List.mem_filter, hmem]
  simp [List.elem_iff]

/-! Claim theorems. -/

/-- C3: for every CSV input whose header row lacks any of the exact field
names date, description, debit, credit, extraction fails with the
missing-header error before any data row is processed (the result does not
depend on the data rows), and the reported list names exactly the set of
missing required header fields. -/
theorem csv_missing_headers (fieldnames : List String) (rows : List CsvRow)
    (h : ∃ c ∈ required_cols, c ∉ fieldnames) :
    csvExtract fieldnames rows = CsvResult.missingCols (csvMissing fieldnames) ∧
    csvExtract fieldnames rows = csvExtract fieldnames [] ∧
    (∀ c, c ∈ csvMissing fieldnames ↔ (c ∈ required_cols ∧ c ∉ fieldnames)) := by
  have hne : csvMissing fieldnames ≠ [] := by
    obtain ⟨c, hc, hnc⟩ := h
    intro hnil
    have hm : c ∈ csvMissing fieldnames := (mem_csvMissing_iff fieldnames c).mpr ⟨hc, hnc⟩
    rw [hnil] at hm
    cases hm
  refine ⟨?_, ?_, fun c => mem_csvMissing_iff fieldnames c⟩ <;> simp [csvExtract, hne]

/-- Witness for C3: a header with only date and description is rejected,
naming credit and debit. -/
theorem csv_missing_headers_witness :
    csvExtract ["date", "description"] [] = CsvResult.missingCols ["credit", "debit"] := by
  have h1 := (csv_missing_headers ["date", "description"] [] ⟨"credit", by decide, by decide⟩).1
  have he : csvMissing ["date", "description"] = ["credit", "debit"] := by decide
  rw [he] at h1
  exact h1

/-- C6: when no review decision has its include flag set, the commit
transition is refused locally: the reduced payload is empty, the observable
outcome is the local warning rather than a confirm-service call, and the
decision set is kept unchanged (the session stays loaded). -/
theorem empty_commit_refused (decisions : List EditorRow)
    (h : ∀ r ∈ decisions, r.importFlag = false) :
    buildItems decisions = [] ∧
    commitTransition decisions = (decisions, CommitAction.warned) := by
  have hempty : buildItems decisions = [] := by
    rw [buildItems, List.filterMap_eq_nil_iff]
    intro r hr
    simp [h r hr]
  exact ⟨hempty, by simp [commitTransition, hempty]⟩

/-- Witness for C6: a single deselected row leads to the warning outcome. -/
theorem empty_commit_refused_witness :
    buildItems [exOffRow] = [] ∧
    commitTransition [exOffRow] = ([exOffRow], CommitAction.warned) :=
  empty_commit_refused [exOffRow] (by decide)

/-- C7: a PDF table row whose joined cells contain both marker tokens is
treated as a header row and never emitted: its row processing yields no
entry, and dropping it from any position of a table leaves both the preview
and the backend output sequences unchanged. -/
theorem pdf_header_rows_dropped (row : PdfRow) (pre suf : List PdfRow)
    (h1 : strContainsSub "Trans" (pdfJoined row) = true)
    (h2 : strContainsSub "Debit" (pdfJoined row) = true) :
    pdfProcessRow row = none ∧
    parse_gtbank_pdf_to_rows [[pre ++ row :: suf]] =
      parse_gtbank_pdf_to_rows [[pre ++ suf]] := by
  have hnone : pdfProcessRow row = none := by
    rw [pdfProcessRow, h1, h2]
    simp
  refine ⟨hnone, ?_⟩
  simp [parse_gtbank_pdf_to_rows, List.filterMap_append, hnone]

/-- Witness for C7: the GTBank header row is dropped from a table that also
holds a data row. -/
theorem pdf_header_rows_dropped_witness :
    pdfProcessRow exHeaderRow = none ∧
    parse_gtbank_pdf_to_rows [[[exIncomeRow] ++ exHeaderRow :: []]] =
      parse_gtbank_pdf_to_rows [[[exIncomeRow] ++ []]] :=
  pdf_header_rows_dropped exHeaderRow [exIncomeRow] [] (by decide) (by decide)

/-- C2: a row of either extractor whose debit and credit cells both parse
to 0.0 (blank and unparsable cells included) is excluded from both the
preview and the backend sequence; each output sequence is never longer than
the input row sequence, and is strictly shorter whenever such a row occurs
among the inputs. -/
theorem zero_rows_excluded (c : CsvRow) (p : PdfRow)
    (hc : csvDebit c = 0 ∧ csvCredit c = 0)
    (hp : pdfDebit p = 0 ∧ pdfCredit p = 0)
    (fieldnames : List String) (crows : List CsvRow)
    (preview : List CsvPreviewRow) (backend : List BackendRow)
    (hok : csvExtract fieldnames crows = CsvResult.ok preview backend)
    (pages : List (List (List PdfRow))) :
    csvProcessRow c = none ∧ pdfProcessRow p = none ∧
    preview.length ≤ crows.length ∧ backend.length ≤ crows.length ∧
    (parse_gtbank_pdf_to_rows pages).1.length ≤ pages.flatten.flatten.length ∧
    (parse_gtbank_pdf_to_rows pages).2.length ≤ pages.flatten.flatten.length ∧
    (c ∈ crows → preview.length < crows.length ∧ backend.length < crows.length) ∧
    (p ∈ pages.flatten.flatten →
      (parse_gtbank_pdf_to_rows pages).1.length < pages.flatten.flatten.length ∧
      (parse_gtbank_pdf_to_rows pages).2.length < pages.flatten.flatten.length) := by
  have hcnone : csvProcessRow c = none := by
    rw [csvProcessRow]
    split_ifs with h1 h2 h3
    · rfl
    · rw [hc.2] at h2
      exact absurd h2 (lt_irrefl 0)
    · rw [hc.1] at h3
      exact absurd h3 (lt_irrefl 0)
    · rfl
  have hpnone : pdfProcessRow p = none := by
    rw [pdfProcessRow]
    split_ifs with h1 h2 h3 h4 h5
    all_goals first | rfl | exact absurd hp h5
  have hsplit : preview = crows.filterMap (fun r => (csvProcessRow r).map Prod.fst) ∧
      backend = crows.filterMap (fun r => (csvProcessRow r).map Prod.snd) := by
    rw [csvExtract] at hok
    split_ifs at hok with hmiss
    all_goals first
      | exact CsvResult.noConfusion hok
      | (injection hok with hpv hbk
         exact ⟨hpv.symm, hbk.symm⟩)
  obtain ⟨hpv, hbk⟩ := hsplit
  subst hpv
  subst hbk
  refine ⟨hcnone, hpnone, List.length_filterMap_le _ _, List.length_filterMap_le _ _,
    List.length_filterMap_le _ _, List.length_filterMap_le _ _, ?_, ?_⟩
  · intro hmem
    constructor
    · exact length_filterMap_lt_of_none _ crows c hmem (by simp [hcnone])
    · exact length_filterMap_lt_of_none _ crows c hmem (by simp [hcnone])
  · intro hmem
    constructor
    · exact length_filterMap_lt_of_none _ _ p hmem (by simp [hpnone])
    · exact length_filterMap_lt_of_none _ _ p hmem (by simp [hpnone])

/-- Witness for C2: on a two-row CSV input and a two-row PDF table, each
holding one zero row, both extractions drop the zero row and the outputs
are strictly shorter than the inputs. -/
theorem zero_rows_excluded_witness :
    csvProcessRow exCsvZeroRow = none ∧ pdfProcessRow exZeroPdfRow = none ∧
    exCsvPreviewOut.length < exCsvRows.length ∧
    exCsvBackendOut.length < exCsvRows.length ∧
    (parse_gtbank_pdf_to_rows exPdfPages).1.length < exPdfPages.flatten.flatten.length ∧
    (parse_gtbank_pdf_to_rows exPdfPages).2.length < exPdfPages.flatten.flatten.length := by
  have h := zero_rows_excluded exCsvZeroRow exZeroPdfRow (by decide) (by decide)
    required_cols exCsvRows exCsvPreviewOut exCsvBackendOut (by decide) exPdfPages
  have hcsv := h.2.2.2.2.2.2.1 (by decide)
  have hpdf := h.2.2.2.2.2.2.2 (by decide)
  exact ⟨h.1, h.2.1, hcsv.1, hcsv.2, hpdf.1, hpdf.2⟩

/-- C10: a PDF row whose date cell is empty after stripping is dropped,
whatever its debit and credit cells hold, and consequently every emitted
preview row and every emitted backend row carries a non-empty date. -/
theorem pdf_empty_date_dropped (p : PdfRow) (pages : List (List (List PdfRow)))
    (hd : pdfDate p = "") :
    pdfProcessRow p = none ∧
    (∀ pv ∈ (parse_gtbank_pdf_to_rows pages).1, pv.date ≠ "") ∧
    (∀ bk ∈ (parse_gtbank_pdf_to_rows pages).2, bk.date ≠ "") := by
  have hnone : pdfProcessRow p = none := by
    rw [pdfProcessRow]
    split_ifs with h1 h2 h3 h4 h5
    all_goals first | rfl | exact absurd hd h4
  have hdate : ∀ r pv bk, pdfProcessRow r = some (pv, bk) →
      pv.date = pdfDate r ∧ bk.date = pdfDate r ∧ pdfDate r ≠ "" := by
    intro r pv bk hr
    rw [pdfProcessRow] at hr
    split_ifs at hr with h1 h2 h3 h4 h5
    all_goals try exact Option.noConfusion hr
    injection hr with hr
    rw [Prod.mk.injEq] at hr
    obtain ⟨ha, hb⟩ := hr
    subst ha
    subst hb
    exact ⟨rfl, rfl, h4⟩
  refine ⟨hnone, ?_, ?_⟩
  · intro pv hpv
    simp only [parse_gtbank_pdf_to_rows] at hpv
    obtain ⟨r, hrmem, hmap⟩ := List.mem_filterMap.mp hpv
    cases hpo : pdfProcessRow r with
    | none => rw [hpo] at hmap; simp at hmap
    | some x =>
      obtain ⟨pv2, bk2⟩ := x
      rw [hpo] at hmap
      simp only [Option.map_some', Option.some.injEq] at hmap
      obtain ⟨h1, h2, h3⟩ := hdate r pv2 bk2 hpo
      rw [← hmap, h1]
      exact h3
  · intro bk hbk
    simp only [parse_gtbank_pdf_to_rows] at hbk
    obtain ⟨r, hrmem, hmap⟩ := List.mem_filterMap.mp hbk
    cases hpo : pdfProcessRow r with
    | none => rw [hpo] at hmap; simp at hmap
    | some x =>
      obtain ⟨pv2, bk2⟩ := x
      rw [hpo] at hmap
      simp only [Option.map_some', Option.some.injEq] at hmap
      obtain ⟨h1, h2, h3⟩ := hdate r pv2 bk2 hpo
      rw [← hmap, h2]
      exact h3

/-- Witness for C10: the empty-date row with a non-zero debit is dropped,
and a concrete emitted backend row has a non-empty date. -/
theorem pdf_empty_date_dropped_witness :
    pdfProcessRow exEmptyDateRow = none ∧ exIncomeBackend.date ≠ "" := by
  have h := pdf_empty_date_dropped exEmptyDateRow [[[exIncomeRow]]] (by decide)
  exact ⟨h.1, h.2.2 exIncomeBackend (by decide)⟩

lemma contains_eq_true_iff (l : List String) (c : String) : l.contains c = true ↔ c ∈ l :=
  List.elem_iff

lemma buildEditorRow_importFlag (r : ImportedRow) : (buildEditorRow r).importFlag = true := rfl

lemma buildEditorRow_direction (r : ImportedRow) :
    (buildEditorRow r).direction = pyOrS r.directionSuggested "INCOME" := rfl

lemma buildEditorRow_category (r : ImportedRow) :
    (buildEditorRow r).category =
      (if !(CATEGORY_OPTIONS.contains (pyOrS r.categorySuggested "MISC")) then "MISC"
       else pyOrS r.categorySuggested "MISC") := rfl

lemma buildEditorRow_category_mem (r : ImportedRow) :
    (buildEditorRow r).category ∈ CATEGORY_OPTIONS := by
  rw [buildEditorRow_category]
  split_ifs with hc
  · decide
  · have hc2 : CATEGORY_OPTIONS.contains (pyOrS r.categorySuggested "MISC") = true := by
      revert hc
      cases CATEGORY_OPTIONS.contains (pyOrS r.categorySuggested "MISC") <;> simp
    exact (contains_eq_true_iff _ _).mp hc2

lemma buildEditorRow_category_of_mem (r : ImportedRow) (s : String)
    (hs : r.categorySuggested = some s) (hmem : s ∈ CATEGORY_OPTIONS) :
    (buildEditorRow r).category = s := by
  have hne : s ≠ "" := by
    rintro rfl
    revert hmem
    decide
  have hp : pyOrS r.categorySuggested "MISC" = s := by
    rw [hs]
    simp [pyOrS, hne]
  rw [buildEditorRow_category, hp, (contains_eq_true_iff _ _).mpr hmem]
  rfl

lemma buildEditorRow_category_of_not_mem (r : ImportedRow) (s : String)
    (hs : r.categorySuggested = some s) (hmem : s ∉ CATEGORY_OPTIONS) :
    (buildEditorRow r).category = "MISC" := by
  by_cases hne : s = ""
  · subst hne
    have hp : pyOrS r.categorySuggested "MISC" = "MISC" := by
      rw [hs]
      simp [pyOrS]
    rw [buildEditorRow_category, hp]
    rfl
  · have hp : pyOrS r.categorySuggested "MISC" = s := by
      rw [hs]
      simp [pyOrS, hne]
    have hc : CATEGORY_OPTIONS.contains s = false := by
      revert hmem
      rw [← contains_eq_true_iff]
      cases CATEGORY_OPTIONS.contains s <;> simp
    rw [buildEditorRow_category, hp, hc]
    rfl

lemma buildEditorRow_category_of_none (r : ImportedRow)
    (hs : r.categorySuggested = none) :
    (buildEditorRow r).category = "MISC" := by
  have hp : pyOrS r.categorySuggested "MISC" = "MISC" := by
    rw [hs]
    simp [pyOrS]
  rw [buildEditorRow_category, hp]
  rfl

/-- C5: review initialization produces exactly one decision per imported
row; each decision defaults the include flag to true, the final type to the
suggested direction (INCOME when the suggestion is absent, that is missing
or empty), and the final category to the suggested category when it belongs
to the closed vocabulary and to the catch-all MISC otherwise, so the chosen
category is always a vocabulary member: an out-of-vocabulary suggestion is
neither passed through nor rejected. -/
theorem review_initialization (rows : List ImportedRow) (i : Nat)
    (h : i < rows.length) (h2 : i < (data_for_editor rows).length) :
    (data_for_editor rows).length = rows.length ∧
    (data_for_editor rows).get ⟨i, h2⟩ = buildEditorRow (rows.get ⟨i, h⟩) ∧
    ((data_for_editor rows).get ⟨i, h2⟩).importFlag = true ∧
    ((data_for_editor rows).get ⟨i, h2⟩).direction =
      pyOrS (rows.get ⟨i, h⟩).directionSuggested "INCOME" ∧
    ((rows.get ⟨i, h⟩).directionSuggested = none →
      ((data_for_editor rows).get ⟨i, h2⟩).direction = "INCOME") ∧
    (∀ s, (rows.get ⟨i, h⟩).categorySuggested = some s → s ∈ CATEGORY_OPTIONS →
      ((data_for_editor rows).get ⟨i, h2⟩).category = s) ∧
    (∀ s, (rows.get ⟨i, h⟩).categorySuggested = some s → s ∉ CATEGORY_OPTIONS →
      ((data_for_editor rows).get ⟨i, h2⟩).category = "MISC") ∧
    ((rows.get ⟨i, h⟩).categorySuggested = none →
      ((data_for_editor rows).get ⟨i, h2⟩).category = "MISC") ∧
    ((data_for_editor rows).get ⟨i, h2⟩).category ∈ CATEGORY_OPTIONS := by
  have hget : (data_for_editor rows).get ⟨i, h2⟩ = buildEditorRow (rows.get ⟨i, h⟩) := by
    simp [data_for_editor, List.get_eq_getElem, List.getElem_map]
  refine ⟨by simp [data_for_editor], hget, ?_, ?_, ?_, ?_, ?_, ?_, ?_⟩
  · rw [hget]
    exact buildEditorRow_importFlag _
  · rw [hget]
    exact buildEditorRow_direction _
  · intro hnone
    rw [hget, buildEditorRow_direction, hnone]
    simp [pyOrS]
  · intro s hs hmem
    rw [hget]
    exact buildEditorRow_category_of_mem _ s hs hmem
  · intro s hs hmem
    rw [hget]
    exact buildEditorRow_category_of_not_mem _ s hs hmem
  · intro hnone
    rw [hget]
    exact buildEditorRow_category_of_none _ hnone
  · rw [hget]
    exact buildEditorRow_category_mem _

/-- Witness for C5: one imported row with the out-of-vocabulary suggestion
WEIRD initializes to an included decision with category MISC. -/
theorem review_initialization_witness :
    (data_for_editor [exImportedWeird]).length = 1 ∧
    ((data_for_editor [exImportedWeird]).get ⟨0, by decide⟩).importFlag = true ∧
    ((data_for_editor [exImportedWeird]).get ⟨0, by decide⟩).category = "MISC" := by
  have h := review_initialization [exImportedWeird] 0 (by decide) (by decide)
  exact ⟨h.1, h.2.2.1, h.2.2.2.2.2.2.1 "WEIRD" rfl (by decide)⟩

/-- C1 counterexample: the PDF extractor accepts a row on which neither
credit > 0 nor debit > 0 holds (blank debit cell, negative credit cell);
the claimed rule would produce no entry, yet the extractor emits an
EXPENSE entry with amount 0. -/
theorem direction_rule_counterexample :
    ¬ (0 < pdfCredit exNegCreditRow) ∧ ¬ (0 < pdfDebit exNegCreditRow) ∧
    pdfProcessRow exNegCreditRow =
      some ({ date := "2024-01-05", reference := "REF", value_date := "2024-01-05",
              debit := 0, credit := -5, balance := "", remarks := "",
              mapped_direction := "EXPENSE", mapped_amount := 0 },
            { date := "2024-01-05", description := "REF", amount := 0,
              direction := "EXPENSE", reference := some "REF", counterparty := none }) :=
  ⟨by decide, by decide, by decide⟩

/-- C1 amended: the CSV extractor implements the direction rule exactly as
claimed (credit > 0 gives INCOME with amount credit, else debit > 0 gives
EXPENSE with amount debit, else no entry); the PDF extractor satisfies the
credit > 0 half, but on every other accepted row it emits an EXPENSE entry
whose amount is the parsed debit even when the debit is not positive. -/
theorem direction_rule_amended (c : CsvRow) (p : PdfRow) :
    (∀ pv bk, csvProcessRow c = some (pv, bk) →
      ((0 < csvCredit c ∧ bk.direction = "INCOME" ∧ bk.amount = csvCredit c) ∨
       (¬ 0 < csvCredit c ∧ 0 < csvDebit c ∧ bk.direction = "EXPENSE" ∧
         bk.amount = csvDebit c))) ∧
    (¬ 0 < csvCredit c → ¬ 0 < csvDebit c → csvProcessRow c = none) ∧
    (∀ pv bk, pdfProcessRow p = some (pv, bk) →
      ((0 < pdfCredit p ∧ bk.direction = "INCOME" ∧ bk.amount = pdfCredit p) ∨
       (¬ 0 < pdfCredit p ∧ bk.direction = "EXPENSE" ∧ bk.amount = pdfDebit p))) := by
  refine ⟨?_, ?_, ?_⟩
  · intro pv bk hr
    rw [csvProcessRow] at hr
    split_ifs at hr with h1 h2 h3
    all_goals try exact Option.noConfusion hr
    · injection hr with hr
      rw [Prod.mk.injEq] at hr
      obtain ⟨ha, hb⟩ := hr
      subst hb
      exact Or.inl ⟨h2, rfl, rfl⟩
    · injection hr with hr
      rw [Prod.mk.injEq] at hr
      obtain ⟨ha, hb⟩ := hr
      subst hb
      exact Or.inr ⟨h2, h3, rfl, rfl⟩
  · intro hcr hdb
    rw [csvProcessRow]
    split_ifs with h1 h2 h3
    all_goals first | rfl | exact absurd h2 hcr | exact absurd h3 hdb
  · intro pv bk hr
    rw [pdfProcessRow] at hr
    split_ifs at hr with h1 h2 h3 h4 h5
    all_goals try exact Option.noConfusion hr
    injection hr with hr
    rw [Prod.mk.injEq] at hr
    obtain ⟨ha, hb⟩ := hr
    subst hb
    by_cases hcr : 0 < pdfCredit p
    · refine Or.inl ⟨hcr, ?_, ?_⟩ <;>
        simp [pdfDirection, pdfAmount, hcr]
    · refine Or.inr ⟨hcr, ?_, ?_⟩ <;>
        simp [pdfDirection, pdfAmount, hcr]

/-- Witness for C1 amended: the income CSV row yields INCOME with the
credit amount, and the all-zero CSV row yields no entry. -/
theorem direction_rule_amended_witness :
    ((0 < csvCredit exCsvIncomeRow ∧ exCsvIncomeBackend.direction = "INCOME" ∧
        exCsvIncomeBackend.amount = csvCredit exCsvIncomeRow) ∨
      (¬ 0 < csvCredit exCsvIncomeRow ∧ 0 < csvDebit exCsvIncomeRow ∧
        exCsvIncomeBackend.direction = "EXPENSE" ∧
        exCsvIncomeBackend.amount = csvDebit exCsvIncomeRow)) ∧
    csvProcessRow exCsvZeroRow = none := by
  constructor
  · exact (direction_rule_amended exCsvIncomeRow exNegCreditRow).1 exCsvIncomePreview
      exCsvIncomeBackend (by decide)
  · exact (direction_rule_amended exCsvZeroRow exNegCreditRow).2.1 (by decide) (by decide)

/-- C4 counterexample: a decision marked include=true but carrying no row
id contributes nothing to the payload, so the payload does not contain
every include=true row. -/
theorem commit_payload_counterexample :
    exNoIdRow.importFlag = true ∧ buildItems [exNoIdRow] = [] :=
  ⟨rfl, by decide⟩

/-- C4 amended: the commit payload contains exactly the decisions whose
include flag is set and whose id, final type and final category are all
present (non-falsy), each reduced to the confirm-item fields in order;
include=false rows contribute nothing; the two-decision example with valid
fields yields exactly one item, for r1. -/
theorem commit_payload_amended (rows : List EditorRow) :
    buildItems rows =
      (rows.filter (fun r => r.importFlag && !(r.id.getD "" == "") &&
        !(r.direction == "") && !(r.category == ""))).map toConfirmItem ∧
    buildItems [exOnRow, exOffRow] =
      [{ importedTransactionId := "r1", finalType := "EXPENSE", finalCategory := "FUEL",
         note := none }] := by
  constructor
  · induction rows with
    | nil => rfl
    | cons r t ih =>
      rw [buildItems, List.filterMap_cons, List.filter_cons]
      rw [buildItems] at ih
      by_cases h1 : r.importFlag = false
      · simp [h1, ih]
      · have h1t : r.importFlag = true := by
          revert h1
          cases r.importFlag <;> simp
        by_cases h2 : r.id.getD "" = ""
        · simp [h1t, h2, ih]
        · by_cases h3 : r.direction = ""
          · simp [h1t, h2, h3, ih]
          · by_cases h4 : r.category = ""
            · simp [h1t, h2, h3, h4, ih]
            · simp [h1t, h2, h3, h4, ih]
  · decide

/-- C8 counterexample: a PDF row with a negative debit cell and a blank
credit cell is accepted and produces a backend entry with a negative
amount. -/
theorem amount_nonneg_counterexample :
    (parse_gtbank_pdf_to_rows [[[exNegDebitRow]]]).2 =
      [{ date := "2024-01-05", description := "REF", amount := -5,
         direction := "EXPENSE", reference := some "REF", counterparty := none }] ∧
    ((-5 : ℚ) < 0) :=
  ⟨by decide, by decide⟩

/-- C8 amended: every CSV-produced entry has a positive amount; a PDF
entry's amount is nonnegative provided the parsed debit is nonnegative (in
particular for nonnegative numeric text) — with a negative debit cell and
nonpositive credit the PDF extractor emits a negative amount. -/
theorem amount_nonneg_amended (c : CsvRow) (p : PdfRow) :
    (∀ pv bk, csvProcessRow c = some (pv, bk) → 0 < bk.amount) ∧
    (∀ pv bk, pdfProcessRow p = some (pv, bk) → 0 ≤ pdfDebit p → 0 ≤ bk.amount) := by
  constructor
  · intro pv bk hr
    rw [csvProcessRow] at hr
    split_ifs at hr with h1 h2 h3
    all_goals try exact Option.noConfusion hr
    · injection hr with hr
      rw [Prod.mk.injEq] at hr
      obtain ⟨ha, hb⟩ := hr
      subst hb
      exact h2
    · injection hr with hr
      rw [Prod.mk.injEq] at hr
      obtain ⟨ha, hb⟩ := hr
      subst hb
      exact h3
  · intro pv bk hr hdeb
    rw [pdfProcessRow] at hr
    split_ifs at hr with h1 h2 h3 h4 h5
    all_goals try exact Option.noConfusion hr
    injection hr with hr
    rw [Prod.mk.injEq] at hr
    obtain ⟨ha, hb⟩ := hr
    subst hb
    show 0 ≤ pdfAmount p
    rw [pdfAmount]
    split_ifs with hcr
    · exact le_of_lt hcr
    · exact hdeb

/-- Witness for C8 amended: the CSV income entry has a positive amount and
the PDF income entry (whose debit cell is blank, hence parses to 0) has a
nonnegative amount. -/
theorem amount_nonneg_amended_witness :
    (0 : ℚ) < exCsvIncomeBackend.amount ∧ (0 : ℚ) ≤ exIncomeBackend.amount := by
  constructor
  · exact (amount_nonneg_amended exCsvIncomeRow exIncomeRow).1 exCsvIncomePreview
      exCsvIncomeBackend (by decide)
  · exact (amount_nonneg_amended exCsvIncomeRow exIncomeRow).2 exIncomePreview
      exIncomeBackend (by decide) (by decide)

/-- C9 counterexample: a PDF row with empty reference and remarks cells but
a non-zero debit is accepted, and the emitted entry's description is the
empty string. -/
theorem description_counterexample :
    pdfProcessRow exNoDescRow =
      some ({ date := "2024-01-05", reference := "", value_date := "", debit := 5,
              credit := 0, balance := "", remarks := "", mapped_direction := "EXPENSE",
              mapped_amount := 5 },
            { date := "2024-01-05", description := "", amount := 5,
              direction := "EXPENSE", reference := none, counterparty := none }) := by
  decide

/-- C9 amended: an accepted PDF row's description is the space-join of its
non-empty reference and remarks cells with the source's fallback, and it is
the empty string exactly when both cells are empty — acceptance does not
guarantee a non-empty description, and the both-empty case is handled
without error. -/
theorem description_synthesis_amended (p : PdfRow) (pv : PreviewRow) (bk : BackendRow)
    (h : pdfProcessRow p = some (pv, bk)) :
    bk.description = descSynth (pdfReference p) (pdfRemarks p) ∧
    (bk.description = "" ↔ (pdfReference p = "" ∧ pdfRemarks p = "")) := by
  have hdesc : bk.description = descSynth (pdfReference p) (pdfRemarks p) := by
    rw [pdfProcessRow] at h
    split_ifs at h with h1 h2 h3 h4 h5
    all_goals try exact Option.noConfusion h
    injection h with h
    rw [Prod.mk.injEq] at h
    obtain ⟨ha, hb⟩ := h
    subst hb
    rfl
  refine ⟨hdesc, ?_⟩
  rw [hdesc]
  exact descSynth_eq_empty_iff _ _

/-- Witness for C9 amended: the row with reference REF and remarks NOTE
yields the description REF NOTE, non-empty as both cells are present. -/
theorem description_synthesis_amended_witness :
    exRemarksBackend.description = descSynth (pdfReference exRemarksRow) (pdfRemarks exRemarksRow) ∧
    (exRemarksBackend.description = "" ↔
      (pdfReference exRemarksRow = "" ∧ pdfRemarks exRemarksRow = "")) :=
  description_synthesis_amended exRemarksRow exRemarksPreview exRemarksBackend (by decide)
